import Mathlib

/-!
Verification of the `viewbox!` self-referential bundle mechanism
(rust-viewbox, src/lib.rs).

The macro generates, for each (data type `D`, view type `V`) pair, a
struct holding `view : V<'static>` and `data : Box<D>`, with operations
`new`, `new_result`, `into_inner`, `view`, `mut_view`.

Shallow embedding choices, from the source:
* A `Box<D>` is a heap cell; at the value level it is the value `D` it
  holds.  A separate heap-instrumented model (`HeapState`, `heap_new`)
  makes the allocation explicit where a claim is about addresses.
* The builder `f: for<'a>|&'a mut D| -> V<'a>` receives a mutable
  reference to the heap-resident data, so it may both mutate the data
  and produce the view; it is embedded as `f : D → D × V` (final data,
  returned view).  `mem::transmute` only erases the lifetime and is the
  identity on values.
* References held inside a view are embedded as named locations into the
  data value, with explicit read/write semantics, following the test
  instantiation `TestData` / `TestView` / `MutView` in the source.
-/

namespace Viewbox

/-- The struct generated by `viewbox!(struct $name<$d, $v>;)`:
`view: $v<'static>` together with `data: Box<$d>` (the box is the
value it holds at this level). -/
structure ViewBox (D V : Type) where
  view : V
  data : D
deriving DecidableEq

/-- `new`: `let mut d = box data; let v = transmute(f(&mut *d)); $name { data: d, view: v }`.
The builder receives the (mutable) heap data and yields the final data
together with the view. -/
def ViewBox.new {D V : Type} (data : D) (f : D → D × V) : ViewBox D V :=
  let p := f data
  { data := p.1, view := p.2 }

/-- `new_result`: `let mut d = box data; match f(&mut *d).map(transmute) {
Ok(v) => Ok($name { data: d, view: v }), Err(e) => Err((*d, e)) }`.
On failure the current heap data `*d` (as the builder left it) is moved
back out and paired with the error. -/
def ViewBox.new_result {D V E : Type} (data : D) (f : D → D × Except E V) :
    Except (D × E) (ViewBox D V) :=
  let p := f data
  match p.2 with
  | Except.ok v => Except.ok { data := p.1, view := v }
  | Except.error e => Except.error (p.1, e)

/-- `into_inner`: `let $name { data: box data, .. } = self; data` —
the data value is moved out of its box and returned, the view is
discarded. -/
def ViewBox.into_inner {D V : Type} (b : ViewBox D V) : D :=
  b.data

/-- `view(&'a self) -> &'a $v<'a>`: the body is
`transmute(&self.view)` — it reads the stored view and performs no
write.  Embedded in state-passing style as (returned view, bundle after
the call), transcribing the body: the result is the stored view and no
field is assigned. -/
def ViewBox.view_call {D V : Type} (b : ViewBox D V) : V × ViewBox D V :=
  (b.view, b)

/-- `mut_view(&'a mut self) -> &'a mut $v<'a>`: grants access to the
stored view (writes through its references are given semantics at the
concrete instantiation below). -/
def ViewBox.mut_view {D V : Type} (b : ViewBox D V) : V :=
  b.view

/-- Body of the `eq` generated by the `#[deriving(PartialEq ...)]` arm,
exactly as written in the source: `{ self.view() == other.view(); }`.
The trailing semicolon makes the comparison a statement, so the block's
value is the unit value, not the boolean comparison. -/
def ViewBox.eq_body {D V : Type} (veq : V → V → Bool) (a b : ViewBox D V) : Unit :=
  let _r := veq (ViewBox.view_call a).1 (ViewBox.view_call b).1
  ()

/-! ## Heap-instrumented model of construction

`let mut d = box data;` places `data` in a fresh heap cell before the
builder runs; the builder is called with a mutable reference to that
cell (`f(&mut *d)`), and the same box — hence the same address — is the
one stored in the bundle. -/

/-- The heap as a list of cells of data values; an address is an index. -/
structure HeapState (D : Type) where
  cells : List D
deriving DecidableEq

/-- `box data`: append a fresh cell holding `data`, returning the new
heap and the cell's address. -/
def boxAlloc {D : Type} (h : HeapState D) (d : D) : HeapState D × Nat :=
  (⟨h.cells ++ [d]⟩, h.cells.length)

/-- A bundle in the heap-instrumented model: the view plus the address
of the box holding the data. -/
structure HeapViewBox (V : Type) where
  view : V
  dataAddr : Nat
deriving DecidableEq

/-- `new` with the heap explicit: allocate the box first, then invoke
the builder with the address of the heap-resident data, then store that
same box in the bundle. -/
def heap_new {D V : Type} (h : HeapState D) (d : D)
    (f : Nat → HeapState D → HeapState D × V) : HeapState D × HeapViewBox V :=
  let a := (boxAlloc h d).2
  let h1 := (boxAlloc h d).1
  let r := f a h1
  (r.1, { view := r.2, dataAddr := a })

/-- `new_result` with the heap explicit: same setup; on failure the
data is read back out of the cell the builder was given. -/
def heap_new_result {D V E : Type} (h : HeapState D) (d : D)
    (f : Nat → HeapState D → HeapState D × Except E V) :
    HeapState D × Except (D × E) (HeapViewBox V) :=
  let a := (boxAlloc h d).2
  let h1 := (boxAlloc h d).1
  let r := f a h1
  match r.2 with
  | Except.ok v => (r.1, Except.ok { view := v, dataAddr := a })
  | Except.error e => (r.1, Except.error (r.1.cells.getD a d, e))

/-! ## Concrete instantiation from the source's tests

`TestData { foo: i32, bar: String }`, with `TestView` holding shared
references and `MutView` holding mutable references into it.  A
reference into `TestData` is a location naming the field it points at;
reading or writing through the reference reads or updates that field of
the current data. -/

/-- `TestData { foo: i32, bar: String }`. -/
structure TestData where
  foo : Int
  bar : String
deriving DecidableEq

/-- Target of an `i32` reference into `TestData` (the only `i32`
reachable field is `foo`). -/
inductive IntRef where
  | fooRef
deriving DecidableEq

/-- Target of a string reference into `TestData` (the only string
field is `bar`). -/
inductive StrRef where
  | barRef
deriving DecidableEq

/-- Dereference an `i32` reference into the current data. -/
def readIntRef (d : TestData) : IntRef → Int
  | IntRef.fooRef => d.foo

/-- Write through a mutable `i32` reference: update the pointed-at
field of the current data. -/
def writeIntRef (d : TestData) (r : IntRef) (n : Int) : TestData :=
  match r with
  | IntRef.fooRef => { d with foo := n }

/-- Dereference a string reference into the current data. -/
def readStrRef (d : TestData) : StrRef → String
  | StrRef.barRef => d.bar

/-- Write through a mutable string reference: update the pointed-at
field of the current data. -/
def writeStrRef (d : TestData) (r : StrRef) (s : String) : TestData :=
  match r with
  | StrRef.barRef => { d with bar := s }

/-- `TestView<'a> { x: &'a i32, y: &'a str }`: a pair of references
into the data. -/
structure TestView where
  x : IntRef
  y : StrRef
deriving DecidableEq

/-- `MutView<'a> { x: &'a mut i32, y: &'a mut String }`. -/
structure MutView where
  x : IntRef
  y : StrRef
deriving DecidableEq

/-- The builder of the `basic` test:
`|d| TestView { x: &d.foo, y: d.bar.as_slice() }` — no mutation, view
wired at `foo` and `bar`. -/
def testBuilder (d : TestData) : TestData × TestView :=
  (d, { x := IntRef.fooRef, y := StrRef.barRef })

/-- The builder of the `mutation` test:
`|d| MutView { x: &mut d.foo, y: &mut d.bar }`. -/
def mutBuilder (d : TestData) : TestData × MutView :=
  (d, { x := IntRef.fooRef, y := StrRef.barRef })

/-- A builder that mutates the heap data (`d.foo = 0`) before wiring
the view — legal, since the builder holds `&mut TestData`. -/
def mutatingBuilder (d : TestData) : TestData × TestView :=
  ({ d with foo := 0 }, { x := IntRef.fooRef, y := StrRef.barRef })

/-- The failing builder of the `error` test: `|_| Err("Nope")`. -/
def failBuilder (d : TestData) : TestData × Except String MutView :=
  (d, Except.error "Nope")

/-- A failing builder that first mutates the heap data (`d.foo = 5`)
and then fails — legal, since the builder holds `&mut TestData`. -/
def mutatingFailBuilder (d : TestData) : TestData × Except String MutView :=
  ({ d with foo := 5 }, Except.error "Nope")

/-- Write through the mutable view's `x` reference:
`*b.mut_view().x = n`. -/
def setX (b : ViewBox TestData MutView) (n : Int) : ViewBox TestData MutView :=
  { b with data := writeIntRef b.data (ViewBox.mut_view b).x n }

/-- Write through the mutable view's `y` reference:
`*b.mut_view().y = s`. -/
def setY (b : ViewBox TestData MutView) (s : String) : ViewBox TestData MutView :=
  { b with data := writeStrRef b.data (ViewBox.mut_view b).y s }

/-! ## Theorems -/

/-- Claim C2: for every data value `d` and every builder `f` that
(succeeds and) leaves `d` unmodified, constructing a bundle with `new`
and then calling `into_inner` returns a data value equal to `d`. -/
theorem round_trip_identity {D V : Type} (d : D) (f : D → D × V)
    (hpure : (f d).1 = d) : (ViewBox.new d f).into_inner = d := by
  simp [ViewBox.new, ViewBox.into_inner, hpure]

/-- Witness for C2 at the source test's data `{foo: 42, bar: "Hello"}`
and builder. -/
theorem round_trip_identity_witness :
    (testBuilder ⟨42, "Hello"⟩).1 = ⟨42, "Hello"⟩ ∧
    (ViewBox.new (⟨42, "Hello"⟩ : TestData) testBuilder).into_inner = ⟨42, "Hello"⟩ :=
  ⟨rfl, round_trip_identity ⟨42, "Hello"⟩ testBuilder rfl⟩

/-- Claim C3, counterexample: a failing builder holds `&mut` to the
heap data and may mutate it before failing; `new_result` then embeds
the mutated data, not the original, in the error.  Here the builder
sets `foo` to `5` before failing with `"Nope"`. -/
theorem failure_preserves_data_counterexample :
    ViewBox.new_result (⟨42, "Hello"⟩ : TestData) mutatingFailBuilder =
      Except.error (⟨5, "Hello"⟩, "Nope") ∧
    (⟨5, "Hello"⟩ : TestData) ≠ ⟨42, "Hello"⟩ :=
  ⟨rfl, by decide⟩

/-- Claim C3 (amended): for every `d` and every failing builder that
does not modify the data, `new_result` returns an error embedding data
equal to the original `d`, paired with the builder's error; the result
value contains no bundle or view. -/
theorem failure_restores_ownership {D V E : Type} (d : D)
    (g : D → D × Except E V) (e : E)
    (hfail : (g d).2 = Except.error e) (hpure : (g d).1 = d) :
    ViewBox.new_result d g = Except.error (d, e) := by
  simp only [ViewBox.new_result, hfail, hpure]

/-- Witness for C3 at the source test's data and failing builder
`|_| Err("Nope")`. -/
theorem failure_restores_ownership_witness :
    (failBuilder ⟨42, "Hello"⟩).2 = Except.error "Nope" ∧
    (failBuilder ⟨42, "Hello"⟩).1 = ⟨42, "Hello"⟩ ∧
    ViewBox.new_result (⟨42, "Hello"⟩ : TestData) failBuilder =
      Except.error (⟨42, "Hello"⟩, "Nope") :=
  ⟨rfl, rfl, failure_restores_ownership ⟨42, "Hello"⟩ failBuilder "Nope" rfl rfl⟩

/-- Claim C4: mutating through the mutable view accessor and then
calling `into_inner` yields data reflecting exactly the mutations
performed through the view's references, and no others: writing `x`
updates only `foo`, writing `y` updates only `bar`, and both writes
give exactly the doubly-updated record. -/
theorem mutation_visibility (d : TestData) (n : Int) (s : String) :
    (setX (ViewBox.new d mutBuilder) n).into_inner = { d with foo := n } ∧
    (setY (ViewBox.new d mutBuilder) s).into_inner = { d with bar := s } ∧
    (setY (setX (ViewBox.new d mutBuilder) n) s).into_inner = { foo := n, bar := s } :=
  ⟨rfl, rfl, rfl⟩

/-- Claim C5: the `eq` body generated by the `PartialEq` arm, as
written (`self.view() == other.view();`), evaluates the comparison as a
statement and returns the unit value of the block: its result is the
same for any two pairs of bundles, so it cannot forward the view
comparison as the claim requires. -/
theorem eq_body_discards_comparison {D V : Type} (veq : V → V → Bool)
    (a b a2 b2 : ViewBox D V) :
    ViewBox.eq_body veq a b = ViewBox.eq_body veq a2 b2 :=
  rfl

/-- Claim C6, counterexample: a builder holding `&mut` may mutate the
data before wiring the view; immediately after construction the view's
`x` reference then dereferences to the mutated `foo` (`0`), not the
original `d.foo` (`42`). -/
theorem view_reflects_data_counterexample :
    readIntRef (ViewBox.new (⟨42, "Hello"⟩ : TestData) mutatingBuilder).data
      ((ViewBox.view_call (ViewBox.new (⟨42, "Hello"⟩ : TestData) mutatingBuilder)).1.x) = 0 ∧
    (⟨42, "Hello"⟩ : TestData).foo = 42 ∧ (0 : Int) ≠ 42 :=
  ⟨rfl, rfl, by decide⟩

/-- Claim C6 (amended): for every `d` and every builder that leaves
`d`'s fields unmodified while wiring view fields at fields of `d`,
every reference-valued field of the view obtained via `view()`
immediately after construction dereferences to the corresponding field
of `d`. -/
theorem view_reflects_data (d : TestData) (f : TestData → TestData × TestView)
    (hpure : (f d).1 = d) :
    readIntRef (ViewBox.new d f).data ((ViewBox.view_call (ViewBox.new d f)).1.x)
      = readIntRef d (f d).2.x ∧
    readStrRef (ViewBox.new d f).data ((ViewBox.view_call (ViewBox.new d f)).1.y)
      = readStrRef d (f d).2.y := by
  constructor <;> simp [ViewBox.new, ViewBox.view_call, hpure]

/-- Witness for C6 at the source test's data and builder: the view's
references dereference to `42` and `"Hello"`. -/
theorem view_reflects_data_witness :
    (testBuilder ⟨42, "Hello"⟩).1 = ⟨42, "Hello"⟩ ∧
    (readIntRef (ViewBox.new (⟨42, "Hello"⟩ : TestData) testBuilder).data
        ((ViewBox.view_call (ViewBox.new (⟨42, "Hello"⟩ : TestData) testBuilder)).1.x)
      = readIntRef ⟨42, "Hello"⟩ (testBuilder ⟨42, "Hello"⟩).2.x ∧
     readStrRef (ViewBox.new (⟨42, "Hello"⟩ : TestData) testBuilder).data
        ((ViewBox.view_call (ViewBox.new (⟨42, "Hello"⟩ : TestData) testBuilder)).1.y)
      = readStrRef ⟨42, "Hello"⟩ (testBuilder ⟨42, "Hello"⟩).2.y) :=
  ⟨rfl, view_reflects_data ⟨42, "Hello"⟩ testBuilder rfl⟩

/-- Claim C7: in both constructors the data is placed in a fresh heap
cell before the builder runs (the heap handed to the builder already
holds `d` at the address handed to it), and that address is the one
the bundle stores, hence the data's final address: for `heap_new`
directly, and for `heap_new_result` whenever it succeeds. -/
theorem heap_resident_before_builder {D V E : Type} (h : HeapState D) (d : D)
    (f : Nat → HeapState D → HeapState D × V)
    (g : Nat → HeapState D → HeapState D × Except E V) :
    ((boxAlloc h d).1).cells[(boxAlloc h d).2]? = some d ∧
    (heap_new h d f).2.dataAddr = (boxAlloc h d).2 ∧
    Option.map (fun vb => vb.dataAddr) ((heap_new_result h d g).2).toOption =
      Option.map (fun _ => (boxAlloc h d).2)
        ((g (boxAlloc h d).2 (boxAlloc h d).1).2).toOption := by
  refine ⟨?_, rfl, ?_⟩
  · simp [boxAlloc]
  · unfold heap_new_result
    cases hres : (g (boxAlloc h d).2 (boxAlloc h d).1).2 <;>
      simp [hres, Except.toOption]

/-- Claim C8: the read-only accessor `view()` has no side effects: the
bundle after the call is unchanged (both stored data and stored view),
the result is the stored view, and a repeated call without intervening
mutation returns the same view. -/
theorem view_call_no_side_effects {D V : Type} (b : ViewBox D V) :
    (ViewBox.view_call b).2 = b ∧
    (ViewBox.view_call b).1 = b.view ∧
    (ViewBox.view_call (ViewBox.view_call b).2).1 = (ViewBox.view_call b).1 :=
  ⟨rfl, rfl, rfl⟩

/-- Claim C9: on the failure path of `new_result`, the data returned
to the caller is the data as the failing builder left it: any
mutations the builder performed before failing are visible. -/
theorem failure_returns_builder_final_data {D V E : Type} (d : D)
    (g : D → D × Except E V) (e : E) (hfail : (g d).2 = Except.error e) :
    ViewBox.new_result d g = Except.error ((g d).1, e) := by
  simp only [ViewBox.new_result, hfail]

/-- Witness for C9: a builder that sets `foo` to `5` and then fails
with `"Nope"`; the error embeds the mutated record `{foo: 5, bar:
"Hello"}`. -/
theorem failure_returns_builder_final_data_witness :
    (mutatingFailBuilder ⟨42, "Hello"⟩).2 = Except.error "Nope" ∧
    (mutatingFailBuilder ⟨42, "Hello"⟩).1 = ⟨5, "Hello"⟩ ∧
    ViewBox.new_result (⟨42, "Hello"⟩ : TestData) mutatingFailBuilder =
      Except.error ((mutatingFailBuilder ⟨42, "Hello"⟩).1, "Nope") :=
  ⟨rfl, rfl,
    failure_returns_builder_final_data ⟨42, "Hello"⟩ mutatingFailBuilder "Nope" rfl⟩

/-- Claim C10: `new_result` applied to a never-failing builder (the
`Ok`-wrapping of a total builder `f`) returns `Ok` of exactly the
bundle `new` builds from `f`: same stored data, same stored view. -/
theorem new_result_total_refines_new {D V E : Type} (d : D) (f : D → D × V) :
    ViewBox.new_result d
        (fun d0 => ((f d0).1, (Except.ok (f d0).2 : Except E V))) =
      Except.ok (ViewBox.new d f) :=
  rfl

end Viewbox
